import Mathlib

/-!
# The root session of package rog (rog.go)

rog.go keeps three package variables, `backend`, `console` and `timing`, and
offers a facade of small functions over them.  Every facade function is
embedded here as a function from the session state to an outcome: the state
it leaves behind together with either its return value or the panic that
ended it.

The facade uses declarations of package rog that live in other files: the
`Backend` interface, the `Console` type with its methods, and the `stats`
type with `NewStats` and `Update`.  They are parameters of the embedding:

* a `Backend` value is the record of its methods (what a Go interface value
  is); its methods act on the `world`, which stands for everything outside
  the three package variables (the window, the input devices, the clock);
* the methods of `*Console` are a `ConsoleDecl`, acting on the contents `κ`
  of the console they are called on;
* `NewStats` and `Update` are a `StatsDecl`; both may read the clock, so they
  act on the world as well.

Modelling conventions:

* a Go pointer (`*Console`, `*stats`) is an `Option` of the contents it
  points to, `none` being the nil pointer; a field read through a nil pointer
  (`timing.Dt`) is the panic `Panic.nilPointer`, as is a method call on the
  nil interface value;
* a method call through a nil pointer (`console.Width()`, `timing.Update()`)
  enters the method with a nil receiver, and what happens then is up to the
  method: the declarations give it beside the method itself (`WidthNil`,
  `UpdateNil`);
* a collaborator may panic; a panic ends the facade function at once and is
  handed to its caller, the state keeping what was assigned before;
* a Backend acts on the world only, except that `Render` may write through
  the console pointer it is handed (`Backend.Rendered`); Console methods
  act on their console only.
-/

namespace rog

/-- A Go run-time panic. -/
inductive Panic where
  | nilPointer
  | raised (msg : String)
  deriving DecidableEq, Repr

/-- How a call ends: it returns a value or it panics. -/
inductive Result (α : Type) where
  | ok (val : α)
  | panic (p : Panic)
  deriving DecidableEq, Repr

/-- The state a call leaves behind together with how it ended. -/
structure Outcome (σ α : Type) where
  state : σ
  result : Result α

/-- Go's rune: an int32 holding a code point. -/
abbrev rune := Int

/-- Modelled from the spec: the type RGB is declared outside rog.go; the spec
describes a Color as an immutable triple of component intensities, each in
the range 0..255. -/
structure RGB where
  R : Fin 256
  G : Fin 256
  B : Fin 256
  deriving DecidableEq, Repr

/-- Modelled from the spec: the type Blender is declared outside rog.go; the
spec gives it the signature (Color, Color) → Color, the first argument being
the current colour of the cell.  A nil Blender is `none : Option Blender`. -/
abbrev Blender := RGB → RGB → RGB

/-- The struct `stats`, of which rog.go reads the fields `Dt` (a float64,
here of a type `φ`) and `Fps` (an int64); `rest` stands for its other
fields. -/
structure stats (φ ρ : Type) where
  Dt : φ
  Fps : Int
  rest : ρ

/-- The interface `Backend`, as the record of the seven methods rog.go calls.
`Rendered c w` is the contents that `Render`, called in world `w`, leaves in
the console with contents `c` that it was handed a pointer to. -/
structure Backend (ω κ μ : Type) where
  Open : Int → Int → Int → ω → Outcome ω Unit
  Close : ω → Outcome ω Unit
  Name : String → ω → Outcome ω Unit
  IsOpen : ω → Outcome ω Bool
  Render : Option κ → ω → Outcome ω Unit
  Rendered : κ → ω → κ
  Mouse : ω → Outcome ω μ
  Key : ω → Outcome ω Int

/-- The constructor and the methods of `*Console` that rog.go calls; `ι` is
the type of the values passed as `...interface{}`.  A method takes the
contents of its receiver first and leaves the receiver's new contents.  The
fields ending in `Nil` are the same methods called with a nil receiver, on
the same arguments: there is no console to act on, so such a call only
returns or panics. -/
structure ConsoleDecl (κ ι : Type) where
  NewConsole : Int → Int → Result κ
  Blit : κ → Option κ → Int → Int → Outcome κ Unit
  Set : κ → Int → Int → Option Blender → Option Blender → String → List ι → Outcome κ Unit
  SetR : κ → Int → Int → Int → Int → Option Blender → Option Blender → String → List ι →
    Outcome κ Unit
  Get : κ → Int → Int → Outcome κ (RGB × RGB × rune)
  Fill : κ → Int → Int → Int → Int → Option Blender → Option Blender → rune → Outcome κ Unit
  Clear : κ → Option Blender → Option Blender → rune → Outcome κ Unit
  Width : κ → Outcome κ Int
  Height : κ → Outcome κ Int
  BlitNil : Option κ → Int → Int → Result Unit
  SetNil : Int → Int → Option Blender → Option Blender → String → List ι → Result Unit
  SetRNil : Int → Int → Int → Int → Option Blender → Option Blender → String → List ι →
    Result Unit
  GetNil : Int → Int → Result (RGB × RGB × rune)
  FillNil : Int → Int → Int → Int → Option Blender → Option Blender → rune → Result Unit
  ClearNil : Option Blender → Option Blender → rune → Result Unit
  WidthNil : Result Int
  HeightNil : Result Int

/-- The constructor `NewStats` and the method `Update` of `*stats`;
`UpdateNil` is `Update` called with a nil receiver. -/
structure StatsDecl (ω φ ρ : Type) where
  NewStats : ω → Outcome ω (stats φ ρ)
  Update : stats φ ρ → ω → Outcome (stats φ ρ × ω) Unit
  UpdateNil : ω → Outcome ω Unit

/-- The package variables `backend`, `console` and `timing` of rog.go, and
the world outside them. -/
structure State (ω κ μ φ ρ : Type) where
  backend : Option (Backend ω κ μ)
  console : Option κ
  timing : Option (stats φ ρ)
  world : ω

section facade

variable {ω κ μ ι φ ρ : Type}

/-- The call `console.m(...)` of a method of `*Console` on the root console:
`m` is the method applied to its arguments, and `n` is what the method does
on these arguments when the receiver is nil. -/
def onConsole {α : Type} (m : κ → Outcome κ α) (n : Result α) (s : State ω κ μ φ ρ) :
    Outcome (State ω κ μ φ ρ) α :=
  match s.console with
  | none => ⟨s, n⟩
  | some c => ⟨{ s with console := some (m c).state }, (m c).result⟩

/-- The call `backend.m(...)` of a method of the registered Backend that
takes no console: `m` selects the method and applies it to its arguments. -/
def onBackend {α : Type} (m : Backend ω κ μ → ω → Outcome ω α) (s : State ω κ μ φ ρ) :
    Outcome (State ω κ μ φ ρ) α :=
  match s.backend with
  | none => ⟨s, Result.panic Panic.nilPointer⟩
  | some b => ⟨{ s with world := (m b s.world).state }, (m b s.world).result⟩

/-- `func SetBackend(b Backend)`. -/
def SetBackend (b : Option (Backend ω κ μ)) (s : State ω κ μ φ ρ) :
    Outcome (State ω κ μ φ ρ) Unit :=
  ⟨{ s with backend := b }, Result.ok ()⟩

/-- `func IsOpen() bool`. -/
def IsOpen (s : State ω κ μ φ ρ) : Outcome (State ω κ μ φ ρ) Bool :=
  onBackend (fun b => b.IsOpen) s

/-- `func Open(width, height, zoom int, title string)`. -/
def Open (C : ConsoleDecl κ ι) (T : StatsDecl ω φ ρ) (width height zoom : Int)
    (title : String) (s : State ω κ μ φ ρ) : Outcome (State ω κ μ φ ρ) Unit :=
  match C.NewConsole width height with
  | Result.panic p => ⟨s, Result.panic p⟩
  | Result.ok c =>
    let s1 : State ω κ μ φ ρ := { s with console := some c }
    let r1 := onBackend (fun b => b.Open width height zoom) s1
    match r1.result with
    | Result.panic p => ⟨r1.state, Result.panic p⟩
    | Result.ok _ =>
      let r2 := onBackend (fun b => b.Name title) r1.state
      match r2.result with
      | Result.panic p => ⟨r2.state, Result.panic p⟩
      | Result.ok _ =>
        let n := T.NewStats r2.state.world
        match n.result with
        | Result.panic p => ⟨{ r2.state with world := n.state }, Result.panic p⟩
        | Result.ok t => ⟨{ r2.state with world := n.state, timing := some t }, Result.ok ()⟩

/-- `func Close()`. -/
def Close (s : State ω κ μ φ ρ) : Outcome (State ω κ μ φ ρ) Unit :=
  onBackend (fun b => b.Close) s

/-- `func SetTitle(title string)`. -/
def SetTitle (title : String) (s : State ω κ μ φ ρ) : Outcome (State ω κ μ φ ρ) Unit :=
  onBackend (fun b => b.Name title) s

/-- `func Flush()`: `backend.Render(console)` and then `timing.Update()`. -/
def Flush (T : StatsDecl ω φ ρ) (s : State ω κ μ φ ρ) : Outcome (State ω κ μ φ ρ) Unit :=
  match s.backend with
  | none => ⟨s, Result.panic Panic.nilPointer⟩
  | some b =>
    let r := b.Render s.console s.world
    let s1 : State ω κ μ φ ρ :=
      { s with console := s.console.map (fun c => b.Rendered c s.world), world := r.state }
    match r.result with
    | Result.panic p => ⟨s1, Result.panic p⟩
    | Result.ok _ =>
      match s1.timing with
      | none => ⟨{ s1 with world := (T.UpdateNil s1.world).state }, (T.UpdateNil s1.world).result⟩
      | some t =>
        let u := T.Update t s1.world
        ⟨{ s1 with timing := some u.state.1, world := u.state.2 }, u.result⟩

/-- `func Mouse() *MouseData`. -/
def Mouse (s : State ω κ μ φ ρ) : Outcome (State ω κ μ φ ρ) μ :=
  onBackend (fun b => b.Mouse) s

/-- `func Key() int`. -/
def Key (s : State ω κ μ φ ρ) : Outcome (State ω κ μ φ ρ) Int :=
  onBackend (fun b => b.Key) s

/-- `func Dt() float64`: the field read `timing.Dt`. -/
def Dt (s : State ω κ μ φ ρ) : Outcome (State ω κ μ φ ρ) φ :=
  match s.timing with
  | none => ⟨s, Result.panic Panic.nilPointer⟩
  | some t => ⟨s, Result.ok t.Dt⟩

/-- `func Fps() int64`: the field read `timing.Fps`. -/
def Fps (s : State ω κ μ φ ρ) : Outcome (State ω κ μ φ ρ) Int :=
  match s.timing with
  | none => ⟨s, Result.panic Panic.nilPointer⟩
  | some t => ⟨s, Result.ok t.Fps⟩

/-- `func Blit(con *Console, x, y int)`. -/
def Blit (C : ConsoleDecl κ ι) (con : Option κ) (x y : Int) (s : State ω κ μ φ ρ) :
    Outcome (State ω κ μ φ ρ) Unit :=
  onConsole (fun c => C.Blit c con x y) (C.BlitNil con x y) s

/-- `func Set(x, y int, fg, bg Blender, data string, rest ...interface{})`. -/
def Set (C : ConsoleDecl κ ι) (x y : Int) (fg bg : Option Blender) (data : String)
    (rest : List ι) (s : State ω κ μ φ ρ) : Outcome (State ω κ μ φ ρ) Unit :=
  onConsole (fun c => C.Set c x y fg bg data rest) (C.SetNil x y fg bg data rest) s

/-- `func SetR(x, y, w, h int, fg, bg Blender, data string, rest ...interface{})`. -/
def SetR (C : ConsoleDecl κ ι) (x y w h : Int) (fg bg : Option Blender) (data : String)
    (rest : List ι) (s : State ω κ μ φ ρ) : Outcome (State ω κ μ φ ρ) Unit :=
  onConsole (fun c => C.SetR c x y w h fg bg data rest) (C.SetRNil x y w h fg bg data rest) s

/-- `func Get(x, y int) (RGB, RGB, rune)`. -/
def Get (C : ConsoleDecl κ ι) (x y : Int) (s : State ω κ μ φ ρ) :
    Outcome (State ω κ μ φ ρ) (RGB × RGB × rune) :=
  onConsole (fun c => C.Get c x y) (C.GetNil x y) s

/-- `func Fill(x, y, w, h int, fg, bg Blender, ch rune)`. -/
def Fill (C : ConsoleDecl κ ι) (x y w h : Int) (fg bg : Option Blender) (ch : rune)
    (s : State ω κ μ φ ρ) : Outcome (State ω κ μ φ ρ) Unit :=
  onConsole (fun c => C.Fill c x y w h fg bg ch) (C.FillNil x y w h fg bg ch) s

/-- `func Clear(fg, bg Blender, ch rune)`. -/
def Clear (C : ConsoleDecl κ ι) (fg bg : Option Blender) (ch : rune) (s : State ω κ μ φ ρ) :
    Outcome (State ω κ μ φ ρ) Unit :=
  onConsole (fun c => C.Clear c fg bg ch) (C.ClearNil fg bg ch) s

/-- `func Width() int`. -/
def Width (C : ConsoleDecl κ ι) (s : State ω κ μ φ ρ) : Outcome (State ω κ μ φ ρ) Int :=
  onConsole (fun c => C.Width c) C.WidthNil s

/-- `func Height() int`. -/
def Height (C : ConsoleDecl κ ι) (s : State ω κ μ φ ρ) : Outcome (State ω κ μ φ ρ) Int :=
  onConsole (fun c => C.Height c) C.HeightNil s

end facade

/-- One of the two queries of the timer. -/
inductive TimerQuery where
  | Dt
  | Fps
  deriving DecidableEq, Repr

/-- The value a call returned, under `f`. -/
def Result.map {α β : Type} (f : α → β) : Result α → Result β
  | Result.ok a => Result.ok (f a)
  | Result.panic p => Result.panic p

section polling

variable {ω κ μ φ ρ : Type}

/-- The call of one timer query: `Dt()` or `Fps()`. -/
def poll (q : TimerQuery) (s : State ω κ μ φ ρ) : Outcome (State ω κ μ φ ρ) (φ ⊕ Int) :=
  match q with
  | TimerQuery.Dt => ⟨(Dt s).state, (Dt s).result.map Sum.inl⟩
  | TimerQuery.Fps => ⟨(Fps s).state, (Fps s).result.map Sum.inr⟩

/-- The calls of a sequence of timer queries, one after the other: the state
after the last one, and how each ended. -/
def pollAll :
    List TimerQuery → State ω κ μ φ ρ → State ω κ μ φ ρ × List (Result (φ ⊕ Int))
  | [], s => (s, [])
  | q :: qs, s =>
    ((pollAll qs (poll q s).state).1, (poll q s).result :: (pollAll qs (poll q s).state).2)

end polling

/-! ## A log of the calls made to the collaborators

To state which calls a facade function makes, and in which order, a Backend
and a StatsDecl are wrapped so that each call is appended to a log kept
beside the world before it is carried out. -/

/-- One call to a Backend method, to `NewStats`, or to `Update` (on the timer
with contents `t`, or with a nil receiver). -/
inductive Event (κ τ : Type) where
  | Open (width height zoom : Int)
  | Close
  | Name (title : String)
  | IsOpen
  | Render (con : Option κ)
  | Mouse
  | Key
  | NewStats
  | Update (t : τ)
  | UpdateNil

section traced

variable {ω κ μ φ ρ τ α : Type}

/-- Carry out the call `m` on the world and append `e` to the log. -/
def logged (e : Event κ τ) (m : ω → Outcome ω α) (w : ω × List (Event κ τ)) :
    Outcome (ω × List (Event κ τ)) α :=
  ⟨((m w.1).state, w.2 ++ [e]), (m w.1).result⟩

/-- The Backend `b`, logging every call it receives. -/
def Backend.traced (b : Backend ω κ μ) : Backend (ω × List (Event κ τ)) κ μ where
  Open := fun width height zoom => logged (Event.Open width height zoom) (b.Open width height zoom)
  Close := logged Event.Close b.Close
  Name := fun title => logged (Event.Name title) (b.Name title)
  IsOpen := logged Event.IsOpen b.IsOpen
  Render := fun con => logged (Event.Render con) (b.Render con)
  Rendered := fun c w => b.Rendered c w.1
  Mouse := logged Event.Mouse b.Mouse
  Key := logged Event.Key b.Key

/-- The timer functions `T`, logging every call. -/
def StatsDecl.traced (T : StatsDecl ω φ ρ) :
    StatsDecl (ω × List (Event κ (stats φ ρ))) φ ρ where
  NewStats := logged Event.NewStats T.NewStats
  Update := fun t w =>
    ⟨((T.Update t w.1).state.1, ((T.Update t w.1).state.2, w.2 ++ [Event.Update t])),
      (T.Update t w.1).result⟩
  UpdateNil := logged Event.UpdateNil T.UpdateNil

end traced

/-! ## The Console of the spec

The file that declares the Console is not among the sources; what follows is the Console as the
spec describes it (sections 3, 4.1 and 4.2). -/

/-- Modelled from the spec: a Cell (declared outside rog.go) is a foreground
Color, a background Color and a single displayed character. -/
structure Cell where
  fg : RGB
  bg : RGB
  ch : rune

/-- Modelled from the spec: a Console (declared outside rog.go) is a
rectangular grid of Cells of fixed width and height, addressed by zero-based
(x, y); `cells x y` is the cell in column x of row y. -/
structure Console where
  w : Nat
  h : Nat
  cells : Nat → Nat → Cell

/-- Modelled from the spec: what the spec of the Console (declared outside rog.go) leaves
open: the blank cell a new console is filled with, the colours it calls
computedFg and computedBg that a Blender is applied to, and string formatting
with format verbs or arguments. -/
structure ConsoleParams (ι : Type) where
  blank : Cell
  computedFg : RGB
  computedBg : RGB
  Sprintf : String → List ι → String

/-- Modelled from the spec: applying a Blender argument (declared outside rog.go); a nil
Blender keeps the existing colour unchanged. -/
def blend (b : Option Blender) (current new : RGB) : RGB :=
  match b with
  | none => current
  | some f => f current new

/-- Modelled from the spec: the text Set writes (declared outside rog.go): the template
interpolated with the trailing arguments, one rune per displayed character.
A template without format verbs and without arguments is the text itself. -/
def text {ι : Type} (P : ConsoleParams ι) (data : String) (rest : List ι) : List rune :=
  ((if rest.isEmpty && !data.toList.contains '%' then data
    else P.Sprintf data rest).toList).map (fun c => Int.ofNat c.toNat)

namespace Console

variable {ι : Type}

/-- Modelled from the spec: Create(width, height) (NewConsole, declared outside rog.go):
all cells are initialised to the blank state; fails if width < 0 or
height < 0. -/
def New (P : ConsoleParams ι) (width height : Int) : Result Console :=
  if width < 0 ∨ height < 0 then Result.panic (Panic.raised "negative size")
  else Result.ok ⟨width.toNat, height.toNat, fun _ _ => P.blank⟩

/-- Modelled from the spec: the bounds of a console (declared outside rog.go): x in [0, W)
and y in [0, H). -/
def inBounds (con : Console) (x y : Int) : Bool :=
  decide (0 ≤ x) && decide (x < con.w) && decide (0 ≤ y) && decide (y < con.h)

/-- Modelled from the spec: the write of one cell (declared outside rog.go): each colour
is blended, or unchanged under a nil Blender; the glyph is always
overwritten. -/
def put (P : ConsoleParams ι) (con : Console) (x y : Nat) (fg bg : Option Blender)
    (ch : rune) : Console :=
  { con with cells := fun i j =>
      if i = x ∧ j = y then
        ⟨blend fg (con.cells x y).fg P.computedFg, blend bg (con.cells x y).bg P.computedBg, ch⟩
      else con.cells i j }

/-- Modelled from the spec: Width() (declared outside rog.go). -/
def Width (con : Console) : Outcome Console Int :=
  ⟨con, Result.ok con.w⟩

/-- Modelled from the spec: Height() (declared outside rog.go). -/
def Height (con : Console) : Outcome Console Int :=
  ⟨con, Result.ok con.h⟩

/-- Modelled from the spec: Get(x, y) (declared outside rog.go) returns the foreground,
the background and the glyph of the cell; out-of-bounds (x, y) is an error. -/
def Get (con : Console) (x y : Int) : Outcome Console (RGB × RGB × rune) :=
  if con.inBounds x y then
    ⟨con, Result.ok ((con.cells x.toNat y.toNat).fg, (con.cells x.toNat y.toNat).bg,
      (con.cells x.toNat y.toNat).ch)⟩
  else ⟨con, Result.panic (Panic.raised "out of bounds")⟩

/-- Modelled from the spec: the write loop of Set (declared outside rog.go): one glyph per
cell, advancing x; a write past the right edge wraps to column 0 of the next
row; a write past the bottom edge drops the remaining text. -/
def write (P : ConsoleParams ι) (fg bg : Option Blender) :
    Console → Nat → Nat → List rune → Console
  | con, _, _, [] => con
  | con, x, y, r :: rs =>
    let x1 := if x < con.w then x else 0
    let y1 := if x < con.w then y else y + 1
    if x1 < con.w ∧ y1 < con.h then write P fg bg (put P con x1 y1 fg bg r) (x1 + 1) y1 rs
    else con

/-- Modelled from the spec: Set(x, y, fgBlender, bgBlender, text,
...formatArgs) (declared outside rog.go); an out-of-bounds starting (x, y) is an error. -/
def Set (P : ConsoleParams ι) (con : Console) (x y : Int) (fg bg : Option Blender)
    (data : String) (rest : List ι) : Outcome Console Unit :=
  if con.inBounds x y then ⟨write P fg bg con x.toNat y.toNat (text P data rest), Result.ok ()⟩
  else ⟨con, Result.panic (Panic.raised "out of bounds")⟩

/-- Modelled from the spec: the write loop of SetR (declared outside rog.go): the line
width for wrapping is w and the writable region the w by h rectangle with
top-left (x, y); (i, j) is the position inside the rectangle; text past the
bottom of the rectangle is dropped and a cell outside the console is
skipped. -/
def writeR (P : ConsoleParams ι) (fg bg : Option Blender) (x y w h : Nat) :
    Console → Nat → Nat → List rune → Console
  | con, _, _, [] => con
  | con, i, j, r :: rs =>
    let i1 := if i < w then i else 0
    let j1 := if i < w then j else j + 1
    if i1 < w ∧ j1 < h then
      writeR P fg bg x y w h
        (if x + i1 < con.w ∧ y + j1 < con.h then put P con (x + i1) (y + j1) fg bg r else con)
        (i1 + 1) j1 rs
    else con

/-- Modelled from the spec: SetR(x, y, w, h, fgBlender, bgBlender, text, ...)
(declared outside rog.go); an out-of-bounds starting (x, y) is an error. -/
def SetR (P : ConsoleParams ι) (con : Console) (x y w h : Int) (fg bg : Option Blender)
    (data : String) (rest : List ι) : Outcome Console Unit :=
  if con.inBounds x y then
    ⟨writeR P fg bg x.toNat y.toNat w.toNat h.toNat con 0 0 (text P data rest), Result.ok ()⟩
  else ⟨con, Result.panic (Panic.raised "out of bounds")⟩

/-- Modelled from the spec: Fill(x, y, w, h, fgBlender, bgBlender, ch)
(declared outside rog.go) writes the glyph to every cell of the rectangle
[x, x+w) × [y, y+h), clipped to the bounds of the console. -/
def Fill (P : ConsoleParams ι) (con : Console) (x y w h : Int) (fg bg : Option Blender)
    (ch : rune) : Outcome Console Unit :=
  ⟨{ con with cells := fun i j =>
      if i < con.w ∧ j < con.h ∧ x ≤ i ∧ (i : Int) < x + w ∧ y ≤ j ∧ (j : Int) < y + h then
        ⟨blend fg (con.cells i j).fg P.computedFg, blend bg (con.cells i j).bg P.computedBg, ch⟩
      else con.cells i j }, Result.ok ()⟩

/-- Modelled from the spec: Clear(fgBlender, bgBlender, ch) (declared outside rog.go) is
Fill over the entire console. -/
def Clear (P : ConsoleParams ι) (con : Console) (fg bg : Option Blender) (ch : rune) :
    Outcome Console Unit :=
  Fill P con 0 0 con.w con.h fg bg ch

/-- Modelled from the spec: Blit(source, x, y) (declared outside rog.go) copies every cell
of the source into this console with top-left at (x, y), without blending,
clipped to the bounds of this console. -/
def Blit (con : Console) (source : Option Console) (x y : Int) : Outcome Console Unit :=
  match source with
  | none => ⟨con, Result.panic Panic.nilPointer⟩
  | some src =>
    ⟨{ con with cells := fun i j =>
        if i < con.w ∧ j < con.h ∧ x ≤ i ∧ (i : Int) < x + src.w ∧ y ≤ j ∧ (j : Int) < y + src.h
        then src.cells (i - x).toNat (j - y).toNat
        else con.cells i j }, Result.ok ()⟩

end Console

/-- Modelled from the spec: the Console declarations that rog.go uses and
that are declared outside it, as the spec describes them.  The spec gives
every operation in terms of the dimensions and the cells of the console it
is called on; on a nil receiver, which has neither, each is taken to end in
a nil-pointer panic. -/
def specConsole {ι : Type} (P : ConsoleParams ι) : ConsoleDecl Console ι where
  NewConsole := Console.New P
  Blit := Console.Blit
  Set := Console.Set P
  SetR := Console.SetR P
  Get := Console.Get
  Fill := Console.Fill P
  Clear := Console.Clear P
  Width := Console.Width
  Height := Console.Height
  BlitNil := fun _ _ _ => Result.panic Panic.nilPointer
  SetNil := fun _ _ _ _ _ _ => Result.panic Panic.nilPointer
  SetRNil := fun _ _ _ _ _ _ _ _ => Result.panic Panic.nilPointer
  GetNil := fun _ _ => Result.panic Panic.nilPointer
  FillNil := fun _ _ _ _ _ _ _ => Result.panic Panic.nilPointer
  ClearNil := fun _ _ _ => Result.panic Panic.nilPointer
  WidthNil := Result.panic Panic.nilPointer
  HeightNil := Result.panic Panic.nilPointer

/-! ## A small backend, timer and console to run the facade on -/

/-- The world of the sample backend: whether the window is open, its title,
the clock, and the number of frames rendered. -/
structure Desk where
  opened : Bool
  title : String
  clock : Nat
  frames : Nat
  deriving DecidableEq, Repr

/-- A sample Backend over a Desk, whose Render leaves the console alone. -/
def deskBackend (κ : Type) : Backend Desk κ (Int × Int) where
  Open := fun _ _ _ d => ⟨{ d with opened := true }, Result.ok ()⟩
  Close := fun d => ⟨{ d with opened := false }, Result.ok ()⟩
  Name := fun title d => ⟨{ d with title := title }, Result.ok ()⟩
  IsOpen := fun d => ⟨d, Result.ok d.opened⟩
  Render := fun _ d => ⟨{ d with frames := d.frames + 1 }, Result.ok ()⟩
  Rendered := fun c _ => c
  Mouse := fun d => ⟨d, Result.ok (0, 0)⟩
  Key := fun d => ⟨d, Result.ok 27⟩

/-- A sample Backend whose Open fails. -/
def brokenBackend (κ : Type) : Backend Desk κ (Int × Int) :=
  { deskBackend κ with Open := fun _ _ _ d => ⟨d, Result.panic (Panic.raised "no display")⟩ }

/-- A sample timer: time is counted in ticks of the Desk clock, which every
reading advances; `rest` holds the time of the previous reading.  Update
reads its receiver first, so on a nil receiver it panics. -/
def tickStats : StatsDecl Desk Nat Nat where
  NewStats := fun d => ⟨{ d with clock := d.clock + 1 }, Result.ok ⟨0, 0, d.clock⟩⟩
  Update := fun t d => ⟨(⟨d.clock - t.rest, t.Fps, d.clock⟩, { d with clock := d.clock + 1 }),
    Result.ok ()⟩
  UpdateNil := fun d => ⟨d, Result.panic Panic.nilPointer⟩

/-- Sample parameters of the spec Console: a blank cell of a space, white on
black. -/
def sampleParams : ConsoleParams Nat where
  blank := ⟨⟨255, 255, 255⟩, ⟨0, 0, 0⟩, 32⟩
  computedFg := ⟨255, 255, 255⟩
  computedBg := ⟨0, 0, 0⟩
  Sprintf := fun data _ => data

/-- The sample Desk before anything happened. -/
def desk0 : Desk := ⟨false, "", 0, 0⟩

/-- A session in which the sample backend is registered and Open has not been
called. -/
def fresh : State (Desk × List (Event Console (stats Nat Nat))) Console (Int × Int) Nat Nat :=
  ⟨some (deskBackend Console).traced, none, none, (desk0, [])⟩

/-! ## The facade on an open session -/

section theorems

variable {ω κ μ ι φ ρ : Type}

/-- What a Console method returns on the root console depends on the root
console only. -/
theorem onConsole_result_congr {α : Type} (m : κ → Outcome κ α) (n : Result α)
    {s1 s2 : State ω κ μ φ ρ} (h : s1.console = s2.console) :
    (onConsole m n s1).result = (onConsole m n s2).result := by
  unfold onConsole
  rw [h]
  cases s2.console <;> rfl

/-- C1: in every session whose registered Backend is b, whatever its root
console and timer were, Open(width, height, zoom, title) succeeds exactly
when NewConsole(width, height), b.Open(width, height, zoom), b.Name(title)
and NewStats() all return, each called in the world the previous one left;
and then it leaves as root console the console c that NewConsole returned
(in place of any previous one), as timer the value t that NewStats returned,
and b still registered, having made exactly the calls b.Open(width, height,
zoom), then b.Name(title), then NewStats(), and no other. -/
theorem Open_success (C : ConsoleDecl κ ι) (T : StatsDecl ω φ ρ) (b : Backend ω κ μ)
    (s : State (ω × List (Event κ (stats φ ρ))) κ μ φ ρ) (width height zoom : Int)
    (title : String) (hb : s.backend = some b.traced) :
    ((Open C T.traced width height zoom title s).result = Result.ok () ↔
      ∃ c t, C.NewConsole width height = Result.ok c ∧
        (b.Open width height zoom s.world.1).result = Result.ok () ∧
        (b.Name title (b.Open width height zoom s.world.1).state).result = Result.ok () ∧
        (T.NewStats (b.Name title (b.Open width height zoom s.world.1).state).state).result
          = Result.ok t) ∧
    ∀ c t, C.NewConsole width height = Result.ok c →
      (b.Open width height zoom s.world.1).result = Result.ok () →
      (b.Name title (b.Open width height zoom s.world.1).state).result = Result.ok () →
      (T.NewStats (b.Name title (b.Open width height zoom s.world.1).state).state).result
        = Result.ok t →
      Open C T.traced width height zoom title s
        = ⟨{ backend := some b.traced, console := some c, timing := some t,
              world := ((T.NewStats
                  (b.Name title (b.Open width height zoom s.world.1).state).state).state,
                s.world.2 ++ [Event.Open width height zoom, Event.Name title,
                  Event.NewStats]) },
            Result.ok ()⟩ := by
  have hrun : ∀ c t, C.NewConsole width height = Result.ok c →
      (b.Open width height zoom s.world.1).result = Result.ok () →
      (b.Name title (b.Open width height zoom s.world.1).state).result = Result.ok () →
      (T.NewStats (b.Name title (b.Open width height zoom s.world.1).state).state).result
        = Result.ok t →
      Open C T.traced width height zoom title s
        = ⟨{ backend := some b.traced, console := some c, timing := some t,
              world := ((T.NewStats
                  (b.Name title (b.Open width height zoom s.world.1).state).state).state,
                s.world.2 ++ [Event.Open width height zoom, Event.Name title,
                  Event.NewStats]) },
            Result.ok ()⟩ := by
    intro c t hn ho hm ht
    simp [Open, hn, onBackend, hb, Backend.traced, StatsDecl.traced, logged, ho, hm, ht]
  refine ⟨⟨fun hok => ?_, fun h => ?_⟩, hrun⟩
  · cases hn : C.NewConsole width height with
    | panic p => simp [Open, hn] at hok
    | ok c =>
      cases ho : (b.Open width height zoom s.world.1).result with
      | panic p => simp [Open, hn, onBackend, hb, Backend.traced, logged, ho] at hok
      | ok u =>
        cases hm : (b.Name title (b.Open width height zoom s.world.1).state).result with
        | panic p => simp [Open, hn, onBackend, hb, Backend.traced, logged, ho, hm] at hok
        | ok v =>
          cases ht : (T.NewStats
              (b.Name title (b.Open width height zoom s.world.1).state).state).result with
          | panic p =>
            simp [Open, hn, onBackend, hb, Backend.traced, StatsDecl.traced, logged, ho, hm,
              ht] at hok
          | ok t => exact ⟨c, t, rfl, rfl, rfl, rfl⟩
  · obtain ⟨c, t, hn, ho, hm, ht⟩ := h
    rw [hrun c t hn ho hm ht]

/-- Witness of C1: Open(5, 4, 2, "again") on the sample session that
Open(3, 2, 1, "rog") left: the 3 by 2 root console and the first timer are
replaced, and the log grows by the three calls. -/
theorem Open_success_witness :
    Open (specConsole sampleParams) tickStats.traced 5 4 2 "again"
        (Open (specConsole sampleParams) tickStats.traced 3 2 1 "rog" fresh).state
      = ⟨{ backend := some (deskBackend Console).traced,
            console := some ⟨5, 4, fun _ _ => sampleParams.blank⟩,
            timing := some ⟨0, 0, 1⟩,
            world := (⟨true, "again", 2, 0⟩,
              [Event.Open 3 2 1, Event.Name "rog", Event.NewStats] ++
                [Event.Open 5 4 2, Event.Name "again", Event.NewStats]) },
          Result.ok ()⟩ :=
  (Open_success (specConsole sampleParams) tickStats (deskBackend Console)
    (Open (specConsole sampleParams) tickStats.traced 3 2 1 "rog" fresh).state 5 4 2 "again"
    rfl).2 ⟨5, 4, fun _ _ => sampleParams.blank⟩ ⟨0, 0, 1⟩ rfl rfl rfl rfl

/-- C2: on an open session (Backend b, root console c, timer t), and provided
b.Render returns, one Flush makes exactly the call b.Render(c) and then
exactly the call t.Update(), in that order: Update acts on the world Render
left, and Flush returns what Update returns. -/
theorem Flush_calls (T : StatsDecl ω φ ρ) (b : Backend ω κ μ)
    (s : State (ω × List (Event κ (stats φ ρ))) κ μ φ ρ) (c : κ) (t : stats φ ρ)
    (hb : s.backend = some b.traced) (hc : s.console = some c) (ht : s.timing = some t)
    (hr : (b.Render (some c) s.world.1).result = Result.ok ()) :
    (Flush T.traced s).state.world.2 = s.world.2 ++ [Event.Render (some c), Event.Update t] ∧
    (Flush T.traced s).state.world.1
      = (T.Update t (b.Render (some c) s.world.1).state).state.2 ∧
    (Flush T.traced s).state.timing
      = some (T.Update t (b.Render (some c) s.world.1).state).state.1 ∧
    (Flush T.traced s).result = (T.Update t (b.Render (some c) s.world.1).state).result := by
  simp [Flush, hb, hc, ht, hr, Backend.traced, StatsDecl.traced, logged]

/-- Witness of C2: a Flush of the sample session after Open(3, 2, 1, "rog"). -/
theorem Flush_calls_witness :
    (Flush tickStats.traced
        (Open (specConsole sampleParams) tickStats.traced 3 2 1 "rog" fresh).state).state.world.2
      = [Event.Open 3 2 1, Event.Name "rog", Event.NewStats] ++
        [Event.Render (some ⟨3, 2, fun _ _ => sampleParams.blank⟩), Event.Update ⟨0, 0, 0⟩] :=
  (Flush_calls tickStats (deskBackend Console)
    (Open (specConsole sampleParams) tickStats.traced 3 2 1 "rog" fresh).state
    ⟨3, 2, fun _ _ => sampleParams.blank⟩ ⟨0, 0, 0⟩ rfl rfl rfl rfl).1

/-- C3: on an open session with root console c, each drawing or query
function of the facade is the method of the same name of c applied to the
same arguments, the format arguments `rest` being passed on unchanged: it
returns what the method returns, the root console holds what the method left
in c, and the registered Backend, the timer and the world are as before (so
no Backend call was made). -/
theorem facade_forwards (C : ConsoleDecl κ ι) (s : State ω κ μ φ ρ) (c : κ)
    (hc : s.console = some c) (x y w h : Int) (fg bg : Option Blender) (data : String)
    (rest : List ι) (ch : rune) (con : Option κ) :
    Set C x y fg bg data rest s
      = ⟨{ s with console := some (C.Set c x y fg bg data rest).state },
          (C.Set c x y fg bg data rest).result⟩ ∧
    SetR C x y w h fg bg data rest s
      = ⟨{ s with console := some (C.SetR c x y w h fg bg data rest).state },
          (C.SetR c x y w h fg bg data rest).result⟩ ∧
    Fill C x y w h fg bg ch s
      = ⟨{ s with console := some (C.Fill c x y w h fg bg ch).state },
          (C.Fill c x y w h fg bg ch).result⟩ ∧
    Clear C fg bg ch s
      = ⟨{ s with console := some (C.Clear c fg bg ch).state }, (C.Clear c fg bg ch).result⟩ ∧
    Blit C con x y s
      = ⟨{ s with console := some (C.Blit c con x y).state }, (C.Blit c con x y).result⟩ ∧
    Get C x y s = ⟨{ s with console := some (C.Get c x y).state }, (C.Get c x y).result⟩ ∧
    Width C s = ⟨{ s with console := some (C.Width c).state }, (C.Width c).result⟩ ∧
    Height C s = ⟨{ s with console := some (C.Height c).state }, (C.Height c).result⟩ := by
  simp [Set, SetR, Fill, Clear, Blit, Get, Width, Height, onConsole, hc]

/-- Witness of C3: the facade on the sample session after Open(3, 2, 1,
"rog"), whose root console is the blank 3 by 2 console. -/
theorem facade_forwards_witness :
    (Width (specConsole sampleParams)
        (Open (specConsole sampleParams) tickStats.traced 3 2 1 "rog" fresh).state).result
      = Result.ok 3 :=
  (congrArg Outcome.result
    (facade_forwards (specConsole sampleParams)
      (Open (specConsole sampleParams) tickStats.traced 3 2 1 "rog" fresh).state
      ⟨3, 2, fun _ _ => sampleParams.blank⟩ rfl 0 0 1 1 none none "A" [] 65 none).2.2.2.2.2.2.1 :)

/-- C5: Flush only reads the root console: when the Render of the registered
Backend leaves the console it is handed as it is, the root console after
Flush is the one before, so Width(), Height() and Get(x, y) return what they
returned before; the registered Backend is unchanged as well, which leaves
the timer as the only package variable Flush changes. -/
theorem Flush_keeps_console (C : ConsoleDecl κ ι) (T : StatsDecl ω φ ρ) (b : Backend ω κ μ)
    (s : State ω κ μ φ ρ) (hb : s.backend = some b) (hro : ∀ c w, b.Rendered c w = c) :
    (Flush T s).state.console = s.console ∧
    (Flush T s).state.backend = s.backend ∧
    (Width C (Flush T s).state).result = (Width C s).result ∧
    (Height C (Flush T s).state).result = (Height C s).result ∧
    ∀ x y, (Get C x y (Flush T s).state).result = (Get C x y s).result := by
  have hcon : (Flush T s).state.console = s.console := by
    unfold Flush
    simp only [hb, hro]
    cases s.console <;> (split <;> try split) <;> simp
  have hbk : (Flush T s).state.backend = s.backend := by
    unfold Flush
    simp only [hb]
    (split <;> try split) <;> simp [hb]
  exact ⟨hcon, hbk, onConsole_result_congr _ _ hcon, onConsole_result_congr _ _ hcon,
    fun _ _ => onConsole_result_congr _ _ hcon⟩

/-- Witness of C5: a Flush of the sample session after Open(3, 2, 1, "rog"). -/
theorem Flush_keeps_console_witness :
    (Flush tickStats.traced
        (Open (specConsole sampleParams) tickStats.traced 3 2 1 "rog" fresh).state).state.console
      = (Open (specConsole sampleParams) tickStats.traced 3 2 1 "rog" fresh).state.console :=
  (Flush_keeps_console (specConsole sampleParams) tickStats.traced (deskBackend Console).traced
    (Open (specConsole sampleParams) tickStats.traced 3 2 1 "rog" fresh).state rfl
    (fun _ _ => rfl)).1

/-- C9: on an open session with timer t, Dt() returns t.Dt and Fps() returns
t.Fps, and neither changes the session or the world; hence the calls of any
sequence of Dt() and Fps() return these same values. -/
theorem Dt_Fps_read_timer (s : State ω κ μ φ ρ) (t : stats φ ρ) (ht : s.timing = some t) :
    Dt s = ⟨s, Result.ok t.Dt⟩ ∧ Fps s = ⟨s, Result.ok t.Fps⟩ ∧
    ∀ qs : List TimerQuery, pollAll qs s
      = (s, qs.map (fun q =>
          match q with
          | TimerQuery.Dt => Result.ok (Sum.inl t.Dt)
          | TimerQuery.Fps => Result.ok (Sum.inr t.Fps))) := by
  have hd : Dt s = ⟨s, Result.ok t.Dt⟩ := by simp [Dt, ht]
  have hf : Fps s = ⟨s, Result.ok t.Fps⟩ := by simp [Fps, ht]
  refine ⟨hd, hf, ?_⟩
  intro qs
  induction qs with
  | nil => rfl
  | cons q qs ih =>
    cases q <;> simp [pollAll, poll, hd, hf, ih, Result.map]

/-- Witness of C9: Dt() on the sample session after Open(3, 2, 1, "rog"). -/
theorem Dt_Fps_read_timer_witness :
    (Dt (Open (specConsole sampleParams) tickStats.traced 3 2 1 "rog" fresh).state).result
      = Result.ok 0 :=
  (congrArg Outcome.result
    (Dt_Fps_read_timer (Open (specConsole sampleParams) tickStats.traced 3 2 1 "rog" fresh).state
      ⟨0, 0, 0⟩ rfl).1 :)

/-- C10: in a session whose registered Backend is b, IsOpen(), Mouse() and
Key() return what b.IsOpen(), b.Mouse() and b.Key() return, and
SetTitle(title) returns as b.Name(title) does; each makes exactly that one
call to b, and the root console, the timer and the registered Backend are as
before. -/
theorem backend_delegations (b : Backend ω κ μ)
    (s : State (ω × List (Event κ (stats φ ρ))) κ μ φ ρ) (title : String)
    (hb : s.backend = some b.traced) :
    IsOpen s = ⟨{ s with world := ((b.IsOpen s.world.1).state, s.world.2 ++ [Event.IsOpen]) },
      (b.IsOpen s.world.1).result⟩ ∧
    Mouse s = ⟨{ s with world := ((b.Mouse s.world.1).state, s.world.2 ++ [Event.Mouse]) },
      (b.Mouse s.world.1).result⟩ ∧
    Key s = ⟨{ s with world := ((b.Key s.world.1).state, s.world.2 ++ [Event.Key]) },
      (b.Key s.world.1).result⟩ ∧
    SetTitle title s
      = ⟨{ s with world := ((b.Name title s.world.1).state, s.world.2 ++ [Event.Name title]) },
          (b.Name title s.world.1).result⟩ := by
  simp [IsOpen, Mouse, Key, SetTitle, onBackend, hb, Backend.traced, logged]

/-- Witness of C10: Key() on the sample session, before Open. -/
theorem backend_delegations_witness : (Key fresh).result = Result.ok 27 :=
  (congrArg Outcome.result
    (backend_delegations (deskBackend Console) fresh "rog" rfl).2.2.1 :)

/-- C4: on an open session whose root console c is a Console of the spec, for
every in-bounds (x, y) and every single glyph g other than the format verb
sign, Get(x, y) returns some (fg0, bg0, ch0), the facade call
Set(x, y, nil, nil, g) returns, and after it Get(x, y) returns (fg0, bg0, g):
the nil Blenders keep both colours and the glyph is overwritten. -/
theorem Set_nil_then_Get (P : ConsoleParams ι) (s : State ω Console μ φ ρ) (c : Console)
    (hc : s.console = some c) (x y : Int) (hx0 : 0 ≤ x) (hx : x < c.w) (hy0 : 0 ≤ y)
    (hy : y < c.h) (g : Char) (hg : g ≠ '%') :
    ∃ fg0 bg0 ch0,
      (Get (specConsole P) x y s).result = Result.ok (fg0, bg0, ch0) ∧
      (Set (specConsole P) x y none none (String.singleton g) [] s).result = Result.ok () ∧
      (Get (specConsole P) x y
          (Set (specConsole P) x y none none (String.singleton g) [] s).state).result
        = Result.ok (fg0, bg0, Int.ofNat g.toNat) := by
  have hin : c.inBounds x y = true := by simp [Console.inBounds, hx0, hx, hy0, hy]
  have hxn : x.toNat < c.w := by omega
  have hyn : y.toNat < c.h := by omega
  have htext : text P (String.singleton g) [] = [Int.ofNat g.toNat] := by
    have hl : (String.singleton g).toList = [g] := rfl
    have hne : ('%' == g) = false := by
      simp only [beq_eq_false_iff_ne, ne_eq]
      exact fun h => hg h.symm
    simp [text, hl, List.contains, List.elem, hne]
  refine ⟨(c.cells x.toNat y.toNat).fg, (c.cells x.toNat y.toNat).bg,
    (c.cells x.toNat y.toNat).ch, ?_, ?_, ?_⟩
  · simp [Get, onConsole, hc, specConsole, Console.Get, hin]
  · simp [Set, onConsole, hc, specConsole, Console.Set, hin]
  · simp [Get, Set, onConsole, hc, specConsole, Console.Get, Console.Set, hin, htext,
      Console.write, hxn, hyn, Console.put, Console.inBounds, hx0, hx, hy0, hy, blend]

/-- Witness of C4: the glyph 界 set at (1, 1) of the sample session after
Open(3, 2, 1, "rog"). -/
theorem Set_nil_then_Get_witness :
    ∃ fg0 bg0 ch0,
      (Get (specConsole sampleParams) 1 1
          (Open (specConsole sampleParams) tickStats.traced 3 2 1 "rog" fresh).state).result
        = Result.ok (fg0, bg0, ch0) ∧
      (Set (specConsole sampleParams) 1 1 none none (String.singleton '界') []
          (Open (specConsole sampleParams) tickStats.traced 3 2 1 "rog" fresh).state).result
        = Result.ok () ∧
      (Get (specConsole sampleParams) 1 1
          (Set (specConsole sampleParams) 1 1 none none (String.singleton '界') []
            (Open (specConsole sampleParams) tickStats.traced 3 2 1 "rog"
              fresh).state).state).result
        = Result.ok (fg0, bg0, Int.ofNat '界'.toNat) :=
  Set_nil_then_Get sampleParams
    (Open (specConsole sampleParams) tickStats.traced 3 2 1 "rog" fresh).state
    ⟨3, 2, fun _ _ => sampleParams.blank⟩ rfl 1 1 (by decide) (by decide) (by decide)
    (by decide) '界' (by decide)

/-! ## The facade before Open, after Close, and on a failing Backend -/

/-- C6, as stated, fails for Flush: on the sample session, where a Backend is
registered and Open was never called, Flush calls Render on the Backend
(with the nil root console, which counts a frame on the Desk) and only then
calls Update on the nil timer, where it fails. -/
theorem Flush_before_Open_calls_Render :
    (Flush tickStats.traced fresh).state.world.2 = [Event.Render none, Event.UpdateNil] ∧
    (Flush tickStats.traced fresh).state.world.1.frames = fresh.world.1.frames + 1 ∧
    (Flush tickStats.traced fresh).result = Result.panic Panic.nilPointer :=
  ⟨rfl, rfl, rfl⟩

/-- C6, amended: in a session where Open was never called (root console and
timer nil), Dt() and Fps() fail at once with a nil-pointer panic, the session
and the world unchanged (so no Backend call was made).  Each of Set, SetR,
Fill, Clear, Blit, Get, Width and Height calls the Console method of the same
name with a nil receiver and the same arguments, ends as that call ends, and
leaves the session and the world unchanged (no Backend call).  Flush fails at
once with a nil-pointer panic when no Backend is registered; with a Backend b
registered it first calls b.Render with the nil console and then, if Render
returned, calls Update with a nil receiver and ends as that call ends; the
three package variables are unchanged. -/
theorem before_Open (C : ConsoleDecl κ ι) (T : StatsDecl ω φ ρ) (s : State ω κ μ φ ρ)
    (hc : s.console = none) (ht : s.timing = none) (x y w h : Int) (fg bg : Option Blender)
    (data : String) (rest : List ι) (ch : rune) (con : Option κ) :
    Dt s = ⟨s, Result.panic Panic.nilPointer⟩ ∧
    Fps s = ⟨s, Result.panic Panic.nilPointer⟩ ∧
    Set C x y fg bg data rest s = ⟨s, C.SetNil x y fg bg data rest⟩ ∧
    SetR C x y w h fg bg data rest s = ⟨s, C.SetRNil x y w h fg bg data rest⟩ ∧
    Fill C x y w h fg bg ch s = ⟨s, C.FillNil x y w h fg bg ch⟩ ∧
    Clear C fg bg ch s = ⟨s, C.ClearNil fg bg ch⟩ ∧
    Blit C con x y s = ⟨s, C.BlitNil con x y⟩ ∧
    Get C x y s = ⟨s, C.GetNil x y⟩ ∧
    Width C s = ⟨s, C.WidthNil⟩ ∧
    Height C s = ⟨s, C.HeightNil⟩ ∧
    (s.backend = none → Flush T s = ⟨s, Result.panic Panic.nilPointer⟩) ∧
    ∀ b, s.backend = some b →
      Flush T s =
        match (b.Render none s.world).result with
        | Result.panic p => ⟨{ s with world := (b.Render none s.world).state }, Result.panic p⟩
        | Result.ok _ =>
          ⟨{ s with world := (T.UpdateNil (b.Render none s.world).state).state },
            (T.UpdateNil (b.Render none s.world).state).result⟩ := by
  refine ⟨?_, ?_, ?_, ?_, ?_, ?_, ?_, ?_, ?_, ?_, ?_, ?_⟩
  · simp [Dt, ht]
  · simp [Fps, ht]
  · simp [Set, onConsole, hc]
  · simp [SetR, onConsole, hc]
  · simp [Fill, onConsole, hc]
  · simp [Clear, onConsole, hc]
  · simp [Blit, onConsole, hc]
  · simp [Get, onConsole, hc]
  · simp [Width, onConsole, hc]
  · simp [Height, onConsole, hc]
  · intro hb
    simp [Flush, hb]
  · intro b hb
    unfold Flush
    simp only [hb, hc, ht, Option.map_none']

/-- Witness of C6, amended: Dt() on the sample session before Open. -/
theorem before_Open_witness : Dt fresh = ⟨fresh, Result.panic Panic.nilPointer⟩ :=
  (before_Open (specConsole sampleParams) tickStats.traced fresh rfl rfl 0 0 1 1 none none
    "A" [] 65 none).1

/-- C7, as stated, fails: on the sample session, after Open(3, 2, 1, "rog")
and Close(), Width() returns 3, Dt() returns the Dt of the timer Open
created, Set writes to the console Open created, and Flush renders it; none
of them fails. -/
theorem after_Close_still_works :
    (Width (specConsole sampleParams) (Close
      (Open (specConsole sampleParams) tickStats.traced 3 2 1 "rog" fresh).state).state).result
      = Result.ok 3 ∧
    (Dt (Close
      (Open (specConsole sampleParams) tickStats.traced 3 2 1 "rog" fresh).state).state).result
      = Result.ok 0 ∧
    (Get (specConsole sampleParams) 0 0
      (Set (specConsole sampleParams) 0 0 none none "A" [] (Close
        (Open (specConsole sampleParams) tickStats.traced 3 2 1 "rog"
          fresh).state).state).state).result
      = Result.ok (⟨255, 255, 255⟩, ⟨0, 0, 0⟩, 65) ∧
    (Flush tickStats.traced (Close
      (Open (specConsole sampleParams) tickStats.traced 3 2 1 "rog" fresh).state).state).result
      = Result.ok () :=
  ⟨rfl, rfl, rfl, rfl⟩

/-- C7, amended: on an open session (Backend b, root console c, timer t),
Close calls b.Close exactly once and changes nothing else: the root console
and the timer stay the ones Open created.  After it every drawing function
and query of the facade still returns what the method of c, or the field of
t, returns, and a Flush still hands c to b.Render and, when Render returns,
updates t. -/
theorem Close_keeps_session (C : ConsoleDecl κ ι) (T : StatsDecl ω φ ρ) (b : Backend ω κ μ)
    (s : State (ω × List (Event κ (stats φ ρ))) κ μ φ ρ) (c : κ) (t : stats φ ρ)
    (hb : s.backend = some b.traced) (hc : s.console = some c) (ht : s.timing = some t)
    (x y w h : Int) (fg bg : Option Blender) (data : String) (rest : List ι) (ch : rune)
    (con : Option κ) :
    Close s = ⟨{ s with world := ((b.Close s.world.1).state, s.world.2 ++ [Event.Close]) },
      (b.Close s.world.1).result⟩ ∧
    (Set C x y fg bg data rest (Close s).state).result = (C.Set c x y fg bg data rest).result ∧
    (SetR C x y w h fg bg data rest (Close s).state).result
      = (C.SetR c x y w h fg bg data rest).result ∧
    (Fill C x y w h fg bg ch (Close s).state).result = (C.Fill c x y w h fg bg ch).result ∧
    (Clear C fg bg ch (Close s).state).result = (C.Clear c fg bg ch).result ∧
    (Blit C con x y (Close s).state).result = (C.Blit c con x y).result ∧
    (Get C x y (Close s).state).result = (C.Get c x y).result ∧
    (Width C (Close s).state).result = (C.Width c).result ∧
    (Height C (Close s).state).result = (C.Height c).result ∧
    (Dt (Close s).state).result = Result.ok t.Dt ∧
    (Fps (Close s).state).result = Result.ok t.Fps ∧
    ((b.Render (some c) (b.Close s.world.1).state).result = Result.ok () →
      (Flush T.traced (Close s).state).state.world.2
        = s.world.2 ++ [Event.Close, Event.Render (some c), Event.Update t]) := by
  have hclose : Close s
      = ⟨{ s with world := ((b.Close s.world.1).state, s.world.2 ++ [Event.Close]) },
          (b.Close s.world.1).result⟩ := by
    simp [Close, onBackend, hb, Backend.traced, logged]
  refine ⟨hclose, ?_, ?_, ?_, ?_, ?_, ?_, ?_, ?_, ?_, ?_, ?_⟩
  · simp [hclose, Set, onConsole, hc]
  · simp [hclose, SetR, onConsole, hc]
  · simp [hclose, Fill, onConsole, hc]
  · simp [hclose, Clear, onConsole, hc]
  · simp [hclose, Blit, onConsole, hc]
  · simp [hclose, Get, onConsole, hc]
  · simp [hclose, Width, onConsole, hc]
  · simp [hclose, Height, onConsole, hc]
  · simp [hclose, Dt, ht]
  · simp [hclose, Fps, ht]
  · intro hr
    simp [hclose, Flush, hb, hc, ht, hr, Backend.traced, StatsDecl.traced, logged]

/-- Witness of C7, amended: Close() on the sample session after Open(3, 2, 1,
"rog"). -/
theorem Close_keeps_session_witness :
    (Close (Open (specConsole sampleParams) tickStats.traced 3 2 1 "rog"
      fresh).state).state.world.2
      = [Event.Open 3 2 1, Event.Name "rog", Event.NewStats] ++ [Event.Close] :=
  congrArg (fun o => o.state.world.2)
    (Close_keeps_session (specConsole sampleParams) tickStats (deskBackend Console)
      (Open (specConsole sampleParams) tickStats.traced 3 2 1 "rog" fresh).state
      ⟨3, 2, fun _ _ => sampleParams.blank⟩ ⟨0, 0, 0⟩ rfl rfl rfl 0 0 1 1 none none "A" [] 65
      none).1

/-- C8: when the Open of the registered Backend b fails (panics with p) on
the call the facade makes, Open(width, height, zoom, title) fails with the
same p; b.Open was called exactly once, and neither b.Name nor NewStats was
called: the log holds the one call, the world is the one b.Open left, and the
timer is the one from before. -/
theorem Open_backend_failure (C : ConsoleDecl κ ι) (T : StatsDecl ω φ ρ) (b : Backend ω κ μ)
    (s : State (ω × List (Event κ (stats φ ρ))) κ μ φ ρ) (width height zoom : Int)
    (title : String) (c : κ) (p : Panic) (hb : s.backend = some b.traced)
    (hn : C.NewConsole width height = Result.ok c)
    (hf : (b.Open width height zoom s.world.1).result = Result.panic p) :
    (Open C T.traced width height zoom title s).result = Result.panic p ∧
    (Open C T.traced width height zoom title s).state.world.2
      = s.world.2 ++ [Event.Open width height zoom] ∧
    (Open C T.traced width height zoom title s).state.world.1
      = (b.Open width height zoom s.world.1).state ∧
    (Open C T.traced width height zoom title s).state.timing = s.timing := by
  simp [Open, hn, onBackend, hb, Backend.traced, logged, hf]

/-- Witness of C8: Open(3, 2, 1, "rog") with the sample Backend whose Open
fails. -/
theorem Open_backend_failure_witness :
    (Open (specConsole sampleParams) tickStats.traced 3 2 1 "rog"
      { fresh with backend := some (brokenBackend Console).traced }).result
      = Result.panic (Panic.raised "no display") :=
  (Open_backend_failure (specConsole sampleParams) tickStats (brokenBackend Console)
    { fresh with backend := some (brokenBackend Console).traced } 3 2 1 "rog"
    ⟨3, 2, fun _ _ => sampleParams.blank⟩ (Panic.raised "no display") rfl rfl rfl).1

end theorems

end rog
